import Mathlib

/-!
Verification development for the STADVDB-MCO1 credit-metrics data warehouse.

The repository is a MySQL star schema (dim_date_qtr, dim_geo, dim_product,
fact_credit_metrics_qtr) with stored procedures that rebuild rollup tables
(RefreshOLAPAggregations, RefreshAllAggregations), a self-healing DDL block
for dim_product, a data-quality procedure (ValidateOLAPDataQuality), a
reporting view (v_powerbi_optimized), and Cube.js measure definitions
(CreditMetrics.js, CreditMetricsCalculated.js) expressed as SQL snippets.

This file gives a shallow embedding of those SQL definitions.  SQL NULL is
modelled as Option, DECIMAL arithmetic as exact rationals, and the MySQL
three-valued comparison semantics is modelled by Bool-valued comparison
functions that yield false on a NULL operand, which is exactly how CASE WHEN
and WHERE consume an UNKNOWN condition.  Division by zero yields NULL, as in
MySQL.  Aggregate functions SUM, AVG, MIN, MAX, STDDEV ignore NULL inputs
and return NULL on an empty set of non-NULL inputs, as in MySQL.
-/

namespace DW

attribute [local semireducible] Rat.add Rat.sub Rat.mul Rat.inv Rat.ofScientific

/-- SQL nullable numeric value. none models SQL NULL. -/
abbrev SqlVal := Option ℚ

/-- SQL comparison a < b under three-valued logic, as consumed by CASE WHEN
and WHERE: a NULL operand makes the condition not-TRUE. -/
def oLt (a b : SqlVal) : Bool :=
  match a, b with
  | some x, some y => decide (x < y)
  | _, _ => false

/-- SQL comparison a > b. -/
def oGt (a b : SqlVal) : Bool :=
  match a, b with
  | some x, some y => decide (y < x)
  | _, _ => false

/-- SQL comparison a <= b. -/
def oLe (a b : SqlVal) : Bool :=
  match a, b with
  | some x, some y => decide (x ≤ y)
  | _, _ => false

/-- SQL predicate a BETWEEN lo AND hi, i.e. lo <= a AND a <= hi. -/
def oBetween (a lo hi : SqlVal) : Bool :=
  oLe lo a && oLe a hi

/-- SQL addition with NULL propagation. -/
def oAdd (a b : SqlVal) : SqlVal :=
  match a, b with
  | some x, some y => some (x + y)
  | _, _ => none

/-- SQL subtraction with NULL propagation. -/
def oSub (a b : SqlVal) : SqlVal :=
  match a, b with
  | some x, some y => some (x - y)
  | _, _ => none

/-- SQL multiplication with NULL propagation. -/
def oMul (a b : SqlVal) : SqlVal :=
  match a, b with
  | some x, some y => some (x * y)
  | _, _ => none

/-- SQL division: NULL propagates and division by zero yields NULL (MySQL
returns NULL for x / 0). -/
def oDiv (a b : SqlVal) : SqlVal :=
  match a, b with
  | some x, some y => if y = 0 then none else some (x / y)
  | _, _ => none

/-- SQL SUM over a column: NULL inputs are ignored; the sum of an empty set
of non-NULL inputs is NULL. -/
def sqlSUM (l : List SqlVal) : SqlVal :=
  let vs := l.filterMap id
  if vs.isEmpty then none else some vs.sum

/-- SQL AVG over a column: the arithmetic mean of the non-NULL inputs; NULL
when there is no non-NULL input. -/
def sqlAVG (l : List SqlVal) : SqlVal :=
  let vs := l.filterMap id
  if vs.isEmpty then none else some (vs.sum / vs.length)

/-- SQL MIN over a column, ignoring NULL inputs. -/
def sqlMIN (l : List SqlVal) : SqlVal :=
  match l.filterMap id with
  | [] => none
  | v :: vs => some (vs.foldl min v)

/-- SQL MAX over a column, ignoring NULL inputs. -/
def sqlMAX (l : List SqlVal) : SqlVal :=
  match l.filterMap id with
  | [] => none
  | v :: vs => some (vs.foldl max v)

/-- Square of SQL STDDEV (the population variance) over a column, ignoring
NULL inputs.  STDDEV itself is an irrational square root in general, so the
model carries its square, which determines it; no claim in this development
depends on the square root itself. -/
def sqlVARP (l : List SqlVal) : SqlVal :=
  let vs := l.filterMap id
  if vs.isEmpty then none
  else
    let m : ℚ := vs.sum / vs.length
    some ((vs.map (fun x => (x - m) * (x - m))).sum / vs.length)

/-- Row of dim_date_qtr.  quarter_key, year, quarter are NOT NULL in the
schema; dates are modelled as integer day numbers, which is all DATEDIFF
arithmetic needs. -/
structure DateRow where
  quarter_key : Int
  year : Int
  quarter : Int
  quarter_start : Int
  quarter_end : Int
deriving DecidableEq

/-- Row of dim_geo: surrogate key plus three nullable natural-key columns. -/
structure GeoRow where
  geo_key : Int
  country : Option String
  state_province : Option String
  city : Option String
deriving DecidableEq

/-- Row of dim_product: surrogate key plus three nullable natural-key
columns. -/
structure ProductRow where
  product_key : Int
  product_code : Option String
  product_type : Option String
  segment : Option String
deriving DecidableEq

/-- Row of fact_credit_metrics_qtr: the three grain keys are NOT NULL in the
schema, the six measures are nullable. -/
structure FactRow where
  quarter_key : Int
  geo_key : Int
  product_key : Int
  originations_cnt : SqlVal
  origination_amt : SqlVal
  balance_amt : SqlVal
  default_rate : SqlVal
  prime_rate : SqlVal
  lending_rate : SqlVal
deriving DecidableEq

/-- The persisted star schema: one fact table and three dimension tables. -/
structure Warehouse where
  fact : List FactRow
  dates : List DateRow
  geos : List GeoRow
  products : List ProductRow
deriving DecidableEq

/-- One row of the inner join
fact_credit_metrics_qtr JOIN dim_date_qtr JOIN dim_geo JOIN dim_product
on the respective keys, as used by every rollup query and by the reporting
views. -/
structure JoinedRow where
  f : FactRow
  d : DateRow
  g : GeoRow
  p : ProductRow
deriving DecidableEq

/-- Rows produced for one fact row by the three dimension joins. -/
def rowsFor (w : Warehouse) (f : FactRow) : List JoinedRow :=
  (w.dates.filter fun d => d.quarter_key == f.quarter_key).flatMap fun d =>
    (w.geos.filter fun g => g.geo_key == f.geo_key).flatMap fun g =>
      (w.products.filter fun p => p.product_key == f.product_key).map fun p =>
        ⟨f, d, g, p⟩

/-- The full fact-dimension join. -/
def joinRows (w : Warehouse) : List JoinedRow :=
  w.fact.flatMap (rowsFor w)

/-- Row of the rollup table agg_credit_metrics_yearly. -/
structure YearlyAggRow where
  year : Int
  country : Option String
  product_type : Option String
  total_originations_cnt : SqlVal
  total_origination_amt : SqlVal
  total_balance_amt : SqlVal
  avg_default_rate : SqlVal
  avg_prime_rate : SqlVal
  avg_lending_rate : SqlVal
deriving DecidableEq

/-- Grouping key of the yearly rollup: (year, country, product_type). -/
abbrev YKey := Int × Option String × Option String

/-- Grouping key of a joined row for the yearly rollup. -/
def yKey (j : JoinedRow) : YKey :=
  (j.d.year, j.g.country, j.p.product_type)

/-- The joined rows falling into the yearly group k. -/
def yearlyGroup (w : Warehouse) (k : YKey) : List JoinedRow :=
  (joinRows w).filter fun j => yKey j == k

/-- The yearly rollup row the GROUP BY query produces for group k:
SUM of the counts and amounts, AVG of the rates. -/
def yearlyAggFor (w : Warehouse) (k : YKey) : YearlyAggRow :=
  let rows := yearlyGroup w k
  { year := k.1
    country := k.2.1
    product_type := k.2.2
    total_originations_cnt := sqlSUM (rows.map fun j => j.f.originations_cnt)
    total_origination_amt := sqlSUM (rows.map fun j => j.f.origination_amt)
    total_balance_amt := sqlSUM (rows.map fun j => j.f.balance_amt)
    avg_default_rate := sqlAVG (rows.map fun j => j.f.default_rate)
    avg_prime_rate := sqlAVG (rows.map fun j => j.f.prime_rate)
    avg_lending_rate := sqlAVG (rows.map fun j => j.f.lending_rate) }

/-- Contents of agg_credit_metrics_yearly produced by the stored procedure
RefreshOLAPAggregations (olap_optimization.sql): TRUNCATE followed by
INSERT ... SELECT with GROUP BY d.year, g.country, p.product_type.  One
output row per distinct grouping key of the fact-dimension join. -/
def RefreshOLAPAggregations (w : Warehouse) : List YearlyAggRow :=
  ((joinRows w).map yKey).dedup.map (yearlyAggFor w)

/-- Row of the rollup table agg_credit_metrics_quarterly.  The stddev
column stores the square of STDDEV (the population variance), see sqlVARP. -/
structure QuarterlyAggRow where
  year : Int
  quarter : Int
  quarter_key : Int
  country : Option String
  product_type : Option String
  total_originations_cnt : SqlVal
  total_origination_amt : SqlVal
  total_balance_amt : SqlVal
  avg_default_rate : SqlVal
  avg_prime_rate : SqlVal
  avg_lending_rate : SqlVal
  min_default_rate : SqlVal
  max_default_rate : SqlVal
  stddev_sq_default_rate : SqlVal
deriving DecidableEq

/-- Grouping key of the quarterly rollup:
(year, quarter, quarter_key, country, product_type). -/
abbrev QKey := Int × Int × Int × Option String × Option String

/-- Grouping key of a joined row for the quarterly rollup. -/
def qKey (j : JoinedRow) : QKey :=
  (j.d.year, j.d.quarter, j.d.quarter_key, j.g.country, j.p.product_type)

/-- The joined rows falling into the quarterly group k. -/
def quarterlyGroup (w : Warehouse) (k : QKey) : List JoinedRow :=
  (joinRows w).filter fun j => qKey j == k

/-- The quarterly rollup row produced for group k by the INSERT inside
RefreshAllAggregations. -/
def quarterlyAggFor (w : Warehouse) (k : QKey) : QuarterlyAggRow :=
  let rows := quarterlyGroup w k
  { year := k.1
    quarter := k.2.1
    quarter_key := k.2.2.1
    country := k.2.2.2.1
    product_type := k.2.2.2.2
    total_originations_cnt := sqlSUM (rows.map fun j => j.f.originations_cnt)
    total_origination_amt := sqlSUM (rows.map fun j => j.f.origination_amt)
    total_balance_amt := sqlSUM (rows.map fun j => j.f.balance_amt)
    avg_default_rate := sqlAVG (rows.map fun j => j.f.default_rate)
    avg_prime_rate := sqlAVG (rows.map fun j => j.f.prime_rate)
    avg_lending_rate := sqlAVG (rows.map fun j => j.f.lending_rate)
    min_default_rate := sqlMIN (rows.map fun j => j.f.default_rate)
    max_default_rate := sqlMAX (rows.map fun j => j.f.default_rate)
    stddev_sq_default_rate := sqlVARP (rows.map fun j => j.f.default_rate) }

/-- Contents the quarterly INSERT of RefreshAllAggregations computes. -/
def refreshQuarterlyRows (w : Warehouse) : List QuarterlyAggRow :=
  ((joinRows w).map qKey).dedup.map (quarterlyAggFor w)

/-- The two rollup tables maintained by RefreshAllAggregations. -/
structure AggTables where
  yearly : List YearlyAggRow
  quarterly : List QuarterlyAggRow
deriving DecidableEq

/-- The statements executed by the stored procedure RefreshAllAggregations,
in source order.  CALL RefreshOLAPAggregations is inlined to its own two
statements (its TRUNCATE and its INSERT on the yearly table). -/
inductive MaintStmt where
  | startTransaction
  | truncYearly
  | insertYearly
  | truncQuarterly
  | insertQuarterly
  | commitTxn
deriving DecidableEq

/-- Statement list of RefreshAllAggregations. -/
def refreshAllStmts : List MaintStmt :=
  [.startTransaction, .truncYearly, .insertYearly,
   .truncQuarterly, .insertQuarterly, .commitTxn]

/-- Effect of one maintenance statement on the rollup tables.  TRUNCATE
empties a table; INSERT ... SELECT appends the recomputed rows. -/
def stepStmt (w : Warehouse) (s : AggTables) : MaintStmt → AggTables
  | .startTransaction => s
  | .truncYearly => { s with yearly := [] }
  | .insertYearly => { s with yearly := s.yearly ++ RefreshOLAPAggregations w }
  | .truncQuarterly => { s with quarterly := [] }
  | .insertQuarterly => { s with quarterly := s.quarterly ++ refreshQuarterlyRows w }
  | .commitTxn => s

/-- Whether a statement makes the current table contents visible to
concurrent readers.  Per the documented MySQL transaction semantics,
TRUNCATE TABLE is DDL and causes an implicit commit (it cannot be rolled
back), so each TRUNCATE is a commit point in addition to the explicit
COMMIT. -/
def isCommitPoint : MaintStmt → Bool
  | .truncYearly => true
  | .truncQuarterly => true
  | .commitTxn => true
  | _ => false

/-- The sequence of rollup-table states a concurrent reader can observe
while RefreshAllAggregations runs against warehouse w starting from
committed state s0: the initial state plus the state after every commit
point. -/
def observableStates (w : Warehouse) (s0 : AggTables) : List AggTables :=
  let step := fun (acc : AggTables × List AggTables) (stmt : MaintStmt) =>
    let s1 := stepStmt w acc.1 stmt
    (s1, if isCommitPoint stmt then acc.2 ++ [s1] else acc.2)
  (refreshAllStmts.foldl step (s0, [s0])).2

/-- LAG(column, 4) at position i of an ordered window partition, NULL when
fewer than four rows precede. -/
def lag4 (vals : List SqlVal) (i : Nat) : SqlVal :=
  if 4 ≤ i then vals.getD (i - 4) none else none

/-- LAG(column, 1) at position i of an ordered window partition. -/
def lag1 (vals : List SqlVal) (i : Nat) : SqlVal :=
  if 1 ≤ i then vals.getD (i - 1) none else none

/-- Value of the year-over-year growth CASE expression of
CreditMetricsCalculated.js at position i of the ordered partition:
WHEN LAG(M, 4) OVER (...) > 0
THEN ((M - LAG(M, 4)) / LAG(M, 4)) * 100 ELSE 0. -/
def growthAt (vals : List SqlVal) (i : Nat) : SqlVal :=
  if oGt (lag4 vals i) (some 0) then
    oMul (oDiv (oSub (vals.getD i none) (lag4 vals i)) (lag4 vals i)) (some 100)
  else some 0

/-- Insert a fact row into a list sorted by ascending quarter_key. -/
def insertByQK (f : FactRow) : List FactRow → List FactRow
  | [] => [f]
  | h :: t => if f.quarter_key ≤ h.quarter_key then f :: h :: t else h :: insertByQK f t

/-- Sort fact rows by ascending quarter_key (ORDER BY quarter_key). -/
def sortByQK : List FactRow → List FactRow
  | [] => []
  | h :: t => insertByQK h (sortByQK t)

/-- The window partition of originationGrowthRate and balanceGrowthRate:
the fact rows with the given geo_key and product_key, ordered by ascending
quarter_key. -/
def partitionRows (w : Warehouse) (g p : Int) : List FactRow :=
  sortByQK (w.fact.filter fun f => f.geo_key == g && f.product_key == p)

/-- The measure originationGrowthRate of CreditMetricsCalculated.js,
evaluated at position i of the (geo_key, product_key) partition. -/
def originationGrowthRate (w : Warehouse) (g p : Int) (i : Nat) : SqlVal :=
  growthAt ((partitionRows w g p).map fun f => f.origination_amt) i

/-- The measure balanceGrowthRate of CreditMetricsCalculated.js, evaluated
at position i of the (geo_key, product_key) partition. -/
def balanceGrowthRate (w : Warehouse) (g p : Int) (i : Nat) : SqlVal :=
  growthAt ((partitionRows w g p).map fun f => f.balance_amt) i

/-- The correlated subquery
SELECT SUM(origination_amt) FROM fact_credit_metrics_qtr
WHERE quarter_key = qk. -/
def quarterSumAmt (w : Warehouse) (qk : Int) : SqlVal :=
  sqlSUM ((w.fact.filter fun f => f.quarter_key == qk).map fun f => f.origination_amt)

/-- The correlated subquery
SELECT AVG(origination_amt) FROM fact_credit_metrics_qtr
WHERE quarter_key = qk. -/
def quarterAvgAmt (w : Warehouse) (qk : Int) : SqlVal :=
  sqlAVG ((w.fact.filter fun f => f.quarter_key == qk).map fun f => f.origination_amt)

/-- The measure marketShareByProduct of CreditMetricsCalculated.js:
origination_amt / (per-quarter SUM of origination_amt) * 100, with no guard
on the denominator. -/
def marketShareByProduct (w : Warehouse) (f : FactRow) : SqlVal :=
  oMul (oDiv f.origination_amt (quarterSumAmt w f.quarter_key)) (some 100)

/-- The measure performanceVsAverage of CreditMetricsCalculated.js:
guarded by CASE WHEN (per-quarter AVG) > 0, ELSE 0. -/
def performanceVsAverage (w : Warehouse) (f : FactRow) : SqlVal :=
  let a := quarterAvgAmt w f.quarter_key
  if oGt a (some 0) then
    oMul (oDiv (oSub f.origination_amt a) a) (some 100)
  else some 0

/-- The measure portfolioHealthScore of CreditMetricsCalculated.js:
CASE WHEN default_rate <= 0.02 THEN 100
WHEN default_rate <= 0.05 THEN 80 - (default_rate - 0.02) * 1000
WHEN default_rate <= 0.10 THEN 50 - (default_rate - 0.05) * 1000
ELSE 0 END. -/
def portfolioHealthScore (r : SqlVal) : SqlVal :=
  if oLe r (some 0.02) then some 100
  else if oLe r (some 0.05) then oSub (some 80) (oMul (oSub r (some 0.02)) (some 1000))
  else if oLe r (some 0.10) then oSub (some 50) (oMul (oSub r (some 0.05)) (some 1000))
  else some 0

/-- The 3-level dimension riskCategory of CreditMetrics.js:
CASE WHEN default_rate > 0.05 THEN High
WHEN default_rate BETWEEN 0.02 AND 0.05 THEN Medium
WHEN default_rate < 0.02 THEN Low ELSE Unknown END. -/
def riskCategory (r : SqlVal) : String :=
  if oGt r (some 0.05) then "High Risk"
  else if oBetween r (some 0.02) (some 0.05) then "Medium Risk"
  else if oLt r (some 0.02) then "Low Risk"
  else "Unknown"

/-- The 6-level dimension riskCategoryDetailed of
CreditMetricsCalculated.js. -/
def riskCategoryDetailed (r : SqlVal) : String :=
  if oGt r (some 0.10) then "Critical Risk"
  else if oGt r (some 0.05) then "High Risk"
  else if oBetween r (some 0.03) (some 0.05) then "Medium-High Risk"
  else if oBetween r (some 0.02) (some 0.03) then "Medium Risk"
  else if oBetween r (some 0.01) (some 0.02) then "Low-Medium Risk"
  else if oLt r (some 0.01) then "Low Risk"
  else "Unknown"

/-- The dimension performanceCategory of CreditMetricsCalculated.js:
compares origination_amt with 1.5x, 1x and 0.5x the per-quarter average,
ELSE Underperformer. -/
def performanceCategory (w : Warehouse) (f : FactRow) : String :=
  let a := quarterAvgAmt w f.quarter_key
  if oGt f.origination_amt (oMul a (some 1.5)) then "Top Performer"
  else if oGt f.origination_amt a then "Above Average"
  else if oGt f.origination_amt (oMul a (some 0.5)) then "Below Average"
  else "Underperformer"

/-- Row of the reporting view v_powerbi_optimized.  The purely
presentational columns that depend on the execution context rather than the
joined row (quarter_label, fiscal_year, fiscal_quarter, full_address,
product_description, time_sequence, is_recent, is_q4, is_h1) are omitted;
every measure column of the view is present.  The six raw measures are
COALESCEd to 0 in the view and therefore have the non-optional type. -/
structure PViewRow where
  quarter_key : Int
  year : Int
  quarter : Int
  quarter_start : Int
  quarter_end : Int
  geo_key : Int
  country : Option String
  state_province : Option String
  city : Option String
  product_key : Int
  product_code : Option String
  product_type : Option String
  segment : Option String
  originations_cnt : ℚ
  origination_amt : ℚ
  balance_amt : ℚ
  default_rate : ℚ
  prime_rate : ℚ
  lending_rate : ℚ
  avg_origination_per_account : SqlVal
  balance_to_origination_ratio : SqlVal
  prime_lending_spread : SqlVal
  risk_category : String
  days_in_quarter : Int
deriving DecidableEq

/-- The risk_category CASE expression of v_powerbi_optimized. -/
def viewRiskCategory (r : SqlVal) : String :=
  if oGt r (some 0.05) then "High Risk"
  else if oGt r (some 0.02) then "Medium Risk"
  else if oGt r (some 0) then "Low Risk"
  else "Unknown"

/-- The SELECT list of v_powerbi_optimized applied to one joined row. -/
def mkPViewRow (f : FactRow) (d : DateRow) (g : GeoRow) (p : ProductRow) : PViewRow :=
  { quarter_key := d.quarter_key
    year := d.year
    quarter := d.quarter
    quarter_start := d.quarter_start
    quarter_end := d.quarter_end
    geo_key := g.geo_key
    country := g.country
    state_province := g.state_province
    city := g.city
    product_key := p.product_key
    product_code := p.product_code
    product_type := p.product_type
    segment := p.segment
    originations_cnt := f.originations_cnt.getD 0
    origination_amt := f.origination_amt.getD 0
    balance_amt := f.balance_amt.getD 0
    default_rate := f.default_rate.getD 0
    prime_rate := f.prime_rate.getD 0
    lending_rate := f.lending_rate.getD 0
    avg_origination_per_account :=
      if oGt f.originations_cnt (some 0) then oDiv f.origination_amt f.originations_cnt
      else some 0
    balance_to_origination_ratio :=
      if oGt f.origination_amt (some 0) then oDiv f.balance_amt f.origination_amt
      else some 0
    prime_lending_spread := oSub f.prime_rate f.lending_rate
    risk_category := viewRiskCategory f.default_rate
    days_in_quarter := d.quarter_end - d.quarter_start + 1 }

/-- The reporting view v_powerbi_optimized: the fact-dimension join with
the SELECT list of mkPViewRow. -/
def vPowerbiOptimized (w : Warehouse) : List PViewRow :=
  (joinRows w).map fun j => mkPViewRow j.f j.d j.g j.p

/-- The grain of a fact row: its (quarter_key, geo_key, product_key)
triple. -/
def grainOf (f : FactRow) : Int × Int × Int :=
  (f.quarter_key, f.geo_key, f.product_key)

/-- Result rows of the stored procedure ValidateOLAPDataQuality: three
issue counts and the freshness figures. -/
structure QualityReport where
  null_quarter_key_cnt : Nat
  negative_amount_cnt : Nat
  invalid_default_rate_cnt : Nat
  latest_quarter_end : Option Int
  days_old : Option Int
deriving DecidableEq

/-- MAX over integer dates, NULL on the empty set. -/
def sqlMAXI (l : List Int) : Option Int :=
  match l with
  | [] => none
  | v :: vs => some (vs.foldl max v)

/-- The stored procedure ValidateOLAPDataQuality: counts fact rows WHERE
quarter_key IS NULL (quarter_key is a NOT NULL column, so the predicate is
identically false), WHERE origination_amt < 0 OR balance_amt < 0, and WHERE
default_rate < 0 OR default_rate > 1; then reports
MAX(d.quarter_end) over the fact-date join and
DATEDIFF(CURDATE(), MAX(d.quarter_end)).  It only reads. -/
def ValidateOLAPDataQuality (w : Warehouse) (today : Int) : QualityReport :=
  let latest := sqlMAXI (w.fact.flatMap fun f =>
    (w.dates.filter fun d => d.quarter_key == f.quarter_key).map fun d => d.quarter_end)
  { null_quarter_key_cnt := w.fact.countP fun _ => false
    negative_amount_cnt := w.fact.countP fun f =>
      oLt f.origination_amt (some 0) || oLt f.balance_amt (some 0)
    invalid_default_rate_cnt := w.fact.countP fun f =>
      oLt f.default_rate (some 0) || oGt f.default_rate (some 1)
    latest_quarter_end := latest
    days_old := latest.map fun m => today - m }

/-- Column of a live table shape as seen through INFORMATION_SCHEMA:
its name and whether it is nullable. -/
structure ColumnDef where
  name : String
  nullable : Bool
deriving DecidableEq

/-- Structural description of a table: its columns in order and the names
of its indexes. -/
structure TableShape where
  columns : List ColumnDef
  indexes : List String
deriving DecidableEq

/-- Corrective DDL actions the dim_product self-heal block can emit. -/
inductive HealAction where
  | addColumn (n : String)
  | relaxNotNull (n : String)
  | addUniqueKey (n : String)
deriving DecidableEq

/-- COUNT(*) FROM INFORMATION_SCHEMA.COLUMNS WHERE COLUMN_NAME = n. -/
def colCount (s : TableShape) (n : String) : Nat :=
  s.columns.countP fun c => c.name == n

/-- COUNT(*) FROM INFORMATION_SCHEMA.COLUMNS WHERE COLUMN_NAME = n AND
IS_NULLABLE = NO. -/
def notNullColCount (s : TableShape) (n : String) : Nat :=
  s.columns.countP fun c => c.name == n && !c.nullable

/-- COUNT(*) FROM information_schema.statistics WHERE index_name = n. -/
def idxCount (s : TableShape) (n : String) : Nat :=
  s.indexes.countP fun i => i == n

/-- One conditional column-add of the self-heal block: IF the column count
is 0, ALTER TABLE ADD COLUMN n VARCHAR(64) NULL, ELSE DO 0. -/
def addColumnIfMissing (s : TableShape) (n : String) : TableShape × List HealAction :=
  if colCount s n = 0 then
    ({ s with columns := s.columns ++ [⟨n, true⟩] }, [.addColumn n])
  else (s, [])

/-- The NOT-NULL relaxation of the self-heal block: IF exactly one column
named product_number is NOT NULL, ALTER TABLE MODIFY product_number INT NULL
DEFAULT NULL, ELSE DO 0. -/
def relaxProductNumber (s : TableShape) : TableShape × List HealAction :=
  if notNullColCount s "product_number" = 1 then
    ({ s with columns := s.columns.map fun c =>
        if c.name == "product_number" then ⟨c.name, true⟩ else c },
     [.relaxNotNull "product_number"])
  else (s, [])

/-- The unique-key creation of the self-heal block: IF no index named n
exists, ALTER TABLE ADD UNIQUE KEY n (...), ELSE DO 0. -/
def addUniqueIfMissing (s : TableShape) (n : String) : TableShape × List HealAction :=
  if idxCount s n = 0 then
    ({ s with indexes := s.indexes ++ [n] }, [.addUniqueKey n])
  else (s, [])

/-- The dim_product self-heal block of the schema script: add product_code,
product_type and segment if missing, relax a legacy NOT NULL
product_number, and ensure the unique key uq_prod, returning the resulting
shape and the list of corrective actions executed. -/
def healDimProduct (s : TableShape) : TableShape × List HealAction :=
  let r1 := addColumnIfMissing s "product_code"
  let r2 := addColumnIfMissing r1.1 "product_type"
  let r3 := addColumnIfMissing r2.1 "segment"
  let r4 := relaxProductNumber r3.1
  let r5 := addUniqueIfMissing r4.1 "uq_prod"
  (r5.1, r1.2 ++ r2.2 ++ r3.2 ++ r4.2 ++ r5.2)

/-- State of a table shape in which every guard of the self-heal block
takes its no-op (DO 0) branch. -/
def healedShape (s : TableShape) : Prop :=
  colCount s "product_code" ≠ 0 ∧
  colCount s "product_type" ≠ 0 ∧
  colCount s "segment" ≠ 0 ∧
  notNullColCount s "product_number" ≠ 1 ∧
  idxCount s "uq_prod" ≠ 0

/-- Health score as worded in the claim, with the two-sided segment
conditions 0.02 < r <= 0.05 and 0.05 < r <= 0.10 stated explicitly. -/
def claimHealthScore (r : ℚ) : ℚ :=
  if r ≤ 0.02 then 100
  else if 0.02 < r ∧ r ≤ 0.05 then 80 - (r - 0.02) * 1000
  else if 0.05 < r ∧ r ≤ 0.10 then 50 - (r - 0.05) * 1000
  else 0

/-- The 3-level risk bucket as worded in the claim: rate > 0.05 High,
0.02 < rate <= 0.05 Medium, 0 < rate <= 0.02 Low, NULL or <= 0 Unknown. -/
def claimRisk3 (r : SqlVal) : String :=
  match r with
  | none => "Unknown"
  | some x =>
      if 0.05 < x then "High Risk"
      else if 0.02 < x then "Medium Risk"
      else if 0 < x then "Low Risk"
      else "Unknown"

/-- The 3-level risk bucket the code actually implements (riskCategory of
CreditMetrics.js), stated directly: rate > 0.05 High, 0.02 <= rate <= 0.05
Medium, rate < 0.02 Low (including zero and negative rates), NULL
Unknown. -/
def amendedRisk3 (r : SqlVal) : String :=
  match r with
  | none => "Unknown"
  | some x =>
      if 0.05 < x then "High Risk"
      else if 0.02 ≤ x then "Medium Risk"
      else "Low Risk"

/-- Coarsening of the 6-level labels onto the 3-level labels, witnessing
that each detailed bucket refines exactly one 3-level bucket. -/
def coarsenRisk : String → String
  | "Critical Risk" => "High Risk"
  | "Medium-High Risk" => "Medium Risk"
  | "Low-Medium Risk" => "Low Risk"
  | s => s

/-- Scenario A warehouse of the spec: Quarter(20243, 2024, Q3),
Geography(US, null, null), Product(CC, CreditCard, Retail), one fact row
with originations_cnt 100, origination_amt 500000, default_rate 0.03. -/
def scenarioA : Warehouse :=
  { fact := [⟨20243, 1, 1, some 100, some 500000, none, some 0.03, none, none⟩]
    dates := [⟨20243, 2024, 3, 19967, 20058⟩]
    geos := [⟨1, some "US", none, none⟩]
    products := [⟨1, some "CC", some "CreditCard", some "Retail"⟩] }

/-- Rollup-table state whose contents equal the recomputation over
scenarioA, i.e. a completed previous refresh. -/
def scenarioAggA : AggTables :=
  { yearly := RefreshOLAPAggregations scenarioA
    quarterly := refreshQuarterlyRows scenarioA }

/-- Warehouse with a single (geo 1, product 1) partition of five quarters
whose origination amounts are 1, 1, 1, 1, 2; only the fact table matters to
the window measures. -/
def wGrowth : Warehouse :=
  { fact :=
      [⟨20231, 1, 1, none, some 1, some 1, none, none, none⟩,
       ⟨20232, 1, 1, none, some 1, some 1, none, none, none⟩,
       ⟨20233, 1, 1, none, some 1, some 1, none, none, none⟩,
       ⟨20234, 1, 1, none, some 1, some 1, none, none, none⟩,
       ⟨20243, 1, 1, none, some 2, some 2, none, none, none⟩]
    dates := []
    geos := []
    products := [] }

/-- Warehouse whose only fact row has origination_amt 0, so the per-quarter
SUM of origination_amt is 0. -/
def wZeroQuarter : Warehouse :=
  { fact := [⟨20241, 1, 1, none, some 0, none, none, none, none⟩]
    dates := []
    geos := []
    products := [] }

/-- The single fact row of wZeroQuarter. -/
def fZero : FactRow :=
  ⟨20241, 1, 1, none, some 0, none, none, none, none⟩

/-- Warehouse with one fully dimensioned fact row whose prime_rate is NULL
while lending_rate is present. -/
def wSpread : Warehouse :=
  { fact := [⟨20243, 1, 1, some 10, some 100, some 50, some 0.03, none, some 0.05⟩]
    dates := [⟨20243, 2024, 3, 19967, 20058⟩]
    geos := [⟨1, some "US", none, none⟩]
    products := [⟨1, some "CC", some "CreditCard", some "Retail"⟩] }

/-- Warehouse whose quarter 20241 holds origination amounts 5 and -5, so
the per-quarter AVG of origination_amt is exactly 0 while one row has a
positive amount. -/
def wCancel : Warehouse :=
  { fact :=
      [⟨20241, 1, 1, none, some 5, none, none, none, none⟩,
       ⟨20241, 2, 1, none, some (-5), none, none, none, none⟩]
    dates := []
    geos := []
    products := [] }

/-- The positive-amount row of wCancel. -/
def fCancelPos : FactRow :=
  ⟨20241, 1, 1, none, some 5, none, none, none, none⟩

/-- Fact row of scenarioA, used to instantiate per-row measures. -/
def fScenarioA : FactRow :=
  ⟨20243, 1, 1, some 100, some 500000, none, some 0.03, none, none⟩

/-!
## Theorems
-/

/-- Helper: value of the growth CASE expression when the fourth-prior value
is positive and the current value is present. -/
theorem growthAt_pos (vals : List SqlVal) (i : Nat) (v m : ℚ)
    (hl : lag4 vals i = some v) (hv : 0 < v) (hm : vals.getD i none = some m) :
    growthAt vals i = some ((m - v) / v * 100) := by
  rw [growthAt, hl, hm]
  simp [oGt, oMul, oDiv, oSub, hv, hv.ne']

/-- Helper: value of the growth CASE expression when there is no fourth
prior row. -/
theorem growthAt_none (vals : List SqlVal) (i : Nat)
    (hl : lag4 vals i = none) : growthAt vals i = some 0 := by
  rw [growthAt, hl]
  simp [oGt]

/-- Helper: value of the growth CASE expression when the fourth-prior value
is not positive. -/
theorem growthAt_nonpos (vals : List SqlVal) (i : Nat) (v : ℚ)
    (hl : lag4 vals i = some v) (hv : v ≤ 0) : growthAt vals i = some 0 := by
  rw [growthAt, hl]
  simp [oGt, not_lt.mpr hv]

/-- Claim C2: the rollup refresh is not atomic.  Starting from a committed,
nonempty previous rollup state over scenarioA, the statement sequence of
RefreshAllAggregations exposes to concurrent readers an intermediate
committed state whose yearly rollup table is empty, although that table is
nonempty both before and after the refresh: the TRUNCATE statements inside
the procedure cause implicit commits that cannot be rolled back, defeating
the START TRANSACTION / ROLLBACK handler the code itself installs. -/
theorem c2_refresh_exposes_empty_rollup :
    (observableStates scenarioA scenarioAggA).head? = some scenarioAggA ∧
    (observableStates scenarioA scenarioAggA).getLast? = some scenarioAggA ∧
    scenarioAggA.yearly ≠ [] ∧
    scenarioAggA.quarterly ≠ [] ∧
    AggTables.mk [] scenarioAggA.quarterly ∈ observableStates scenarioA scenarioAggA := by
  decide

/-- Claim C3 (counterexample): in the partition of wGrowth, whose
origination amounts are 1, 1, 1, 1, 2, the code computes growth 100 at the
fifth row, not the claimed (2 - 1) / 1 = 1: the implementation multiplies
the ratio by 100. -/
theorem c3_growth_counterexample :
    originationGrowthRate wGrowth 1 1 4 = some 100 ∧
    ¬ originationGrowthRate wGrowth 1 1 4 = some ((2 - 1) / 1) := by
  decide

/-- Claim C3 as amended: the year-over-year growth of origination_amt and
balance_amt at a row equals ((M_t - M_t4) / M_t4) * 100 (a percentage),
where M_t4 is the value four positions earlier in the (geo_key,
product_key) partition ordered by ascending quarter_key; whenever no such
fourth-prior row exists, or its value is not positive, the growth is
exactly 0, never NULL. -/
theorem c3_growth_amended (w : Warehouse) (g p : Int) (i : Nat) :
    (∀ v m : ℚ,
      lag4 ((partitionRows w g p).map fun f => f.origination_amt) i = some v →
      0 < v →
      ((partitionRows w g p).map fun f => f.origination_amt).getD i none = some m →
      originationGrowthRate w g p i = some ((m - v) / v * 100)) ∧
    (lag4 ((partitionRows w g p).map fun f => f.origination_amt) i = none →
      originationGrowthRate w g p i = some 0) ∧
    (∀ v : ℚ,
      lag4 ((partitionRows w g p).map fun f => f.origination_amt) i = some v →
      v ≤ 0 → originationGrowthRate w g p i = some 0) ∧
    (∀ v m : ℚ,
      lag4 ((partitionRows w g p).map fun f => f.balance_amt) i = some v →
      0 < v →
      ((partitionRows w g p).map fun f => f.balance_amt).getD i none = some m →
      balanceGrowthRate w g p i = some ((m - v) / v * 100)) ∧
    (lag4 ((partitionRows w g p).map fun f => f.balance_amt) i = none →
      balanceGrowthRate w g p i = some 0) ∧
    (∀ v : ℚ,
      lag4 ((partitionRows w g p).map fun f => f.balance_amt) i = some v →
      v ≤ 0 → balanceGrowthRate w g p i = some 0) := by
  refine ⟨fun v m h1 h2 h3 => ?_, fun h1 => ?_, fun v h1 h2 => ?_,
          fun v m h1 h2 h3 => ?_, fun h1 => ?_, fun v h1 h2 => ?_⟩
  · exact growthAt_pos _ _ v m h1 h2 h3
  · exact growthAt_none _ _ h1
  · exact growthAt_nonpos _ _ v h1 h2
  · exact growthAt_pos _ _ v m h1 h2 h3
  · exact growthAt_none _ _ h1
  · exact growthAt_nonpos _ _ v h1 h2

/-- Witness for c3_growth_amended at the wGrowth partition: the fourth
prior of row 4 is 1, the current value is 2, and the growth evaluates to
(2 - 1) / 1 * 100. -/
theorem c3_growth_amended_witness :
    lag4 ((partitionRows wGrowth 1 1).map fun f => f.origination_amt) 4 = some 1 ∧
    ((partitionRows wGrowth 1 1).map fun f => f.origination_amt).getD 4 none = some 2 ∧
    originationGrowthRate wGrowth 1 1 4 = some ((2 - 1) / 1 * 100) :=
  ⟨by decide, by decide,
   (c3_growth_amended wGrowth 1 1 4).1 1 2 (by decide) (by decide) (by decide)⟩

/-- Claim C4 (counterexample): for the quarter of wZeroQuarter the
per-quarter sum of origination_amt is 0 and the market-share measure
evaluates to NULL, not to 0: its division carries no denominator guard. -/
theorem c4_market_share_counterexample :
    quarterSumAmt wZeroQuarter fZero.quarter_key = some 0 ∧
    marketShareByProduct wZeroQuarter fZero = none := by
  decide

/-- Claim C4 as amended: performanceVsAverage resolves a zero or absent
denominator to 0 and never raises, but marketShareByProduct, whose division
is unguarded, evaluates to SQL NULL - not 0 - whenever the per-quarter sum
of origination_amt is zero or NULL; neither measure raises an error. -/
theorem c4_division_guard_amended (w : Warehouse) (f : FactRow) :
    (quarterSumAmt w f.quarter_key = some 0 → marketShareByProduct w f = none) ∧
    (quarterSumAmt w f.quarter_key = none → marketShareByProduct w f = none) ∧
    (quarterAvgAmt w f.quarter_key = none → performanceVsAverage w f = some 0) ∧
    (∀ z : ℚ, quarterAvgAmt w f.quarter_key = some z → z ≤ 0 →
      performanceVsAverage w f = some 0) := by
  refine ⟨fun h => ?_, fun h => ?_, fun h => ?_, fun z h hz => ?_⟩
  · cases hf : f.origination_amt <;>
      simp [marketShareByProduct, h, hf, oDiv, oMul]
  · cases hf : f.origination_amt <;>
      simp [marketShareByProduct, h, hf, oDiv, oMul]
  · simp [performanceVsAverage, h, oGt]
  · simp [performanceVsAverage, h, oGt, not_lt.mpr hz]

/-- Witness for c4_division_guard_amended on wZeroQuarter: the per-quarter
sum is 0, market share is NULL, and performance-vs-average is 0. -/
theorem c4_division_guard_witness :
    quarterSumAmt wZeroQuarter fZero.quarter_key = some 0 ∧
    quarterAvgAmt wZeroQuarter fZero.quarter_key = some 0 ∧
    marketShareByProduct wZeroQuarter fZero = none ∧
    performanceVsAverage wZeroQuarter fZero = some 0 :=
  ⟨by decide, by decide,
   (c4_division_guard_amended wZeroQuarter fZero).1 (by decide),
   (c4_division_guard_amended wZeroQuarter fZero).2.2.2 0 (by decide) (by decide)⟩

/-- Claim C5: for every non-NULL default_rate r the portfolio health score
equals the claimed piecewise-linear function - 100 for r <= 0.02,
80 - (r - 0.02) * 1000 for 0.02 < r <= 0.05, 50 - (r - 0.05) * 1000 for
0.05 < r <= 0.10, and 0 above 0.10 - and in particular r = 0.02 gives 100,
r = 0.035 gives 65 and r = 0.05 gives 50. -/
theorem c5_portfolio_health_score :
    (∀ r : ℚ, portfolioHealthScore (some r) = some (claimHealthScore r)) ∧
    portfolioHealthScore (some 0.02) = some 100 ∧
    portfolioHealthScore (some 0.035) = some 65 ∧
    portfolioHealthScore (some 0.05) = some 50 := by
  refine ⟨fun r => ?_, by decide, by decide, by decide⟩
  rcases le_or_lt r 0.02 with h1 | h1
  · simp [portfolioHealthScore, claimHealthScore, oLe, h1]
  · rcases le_or_lt r 0.05 with h2 | h2
    · have hA : ¬ r ≤ 0.02 := not_le.mpr h1
      simp [portfolioHealthScore, claimHealthScore, oLe, oSub, oMul, hA, h1, h2]
    · rcases le_or_lt r 0.10 with h3 | h3
      · have hA : ¬ r ≤ 0.02 := by norm_num; linarith
        have hB : ¬ r ≤ 0.05 := not_le.mpr h2
        have hC : ¬ (0.02 < r ∧ r ≤ 0.05) := fun hc => hB hc.2
        simp [portfolioHealthScore, claimHealthScore, oLe, oSub, oMul, hA, hB, hC, h2, h3]
      · have hA : ¬ r ≤ 0.02 := by norm_num; linarith
        have hB : ¬ r ≤ 0.05 := by norm_num; linarith
        have hC : ¬ r ≤ 0.10 := not_le.mpr h3
        have hD : ¬ (0.02 < r ∧ r ≤ 0.05) := fun hc => hB hc.2
        have hE : ¬ (0.05 < r ∧ r ≤ 0.10) := fun hc => hC hc.2
        simp [portfolioHealthScore, claimHealthScore, oLe, oSub, oMul, hA, hB, hC, hD, hE]

/-- Claim C10 (counterexample): in wCancel the per-quarter average of
origination_amt is exactly 0, yet the positive-amount row classifies as
Top Performer, not Underperformer: a zero average satisfies the comparison
amount > average * 1.5 whenever the amount is positive. -/
theorem c10_performance_counterexample :
    quarterAvgAmt wCancel fCancelPos.quarter_key = some 0 ∧
    performanceCategory wCancel fCancelPos = "Top Performer" ∧
    ("Top Performer" : String) ≠ "Underperformer" := by
  decide

/-- Claim C10 as amended: the performance category is never Unknown and
never an error; a row with NULL origination_amt is always an
Underperformer; a row in a quarter with NULL or zero average is an
Underperformer provided its own amount is not positive (a NULL quarter
average forces the amount of every row of that quarter, hence of the row
itself, to be NULL); but a positive amount in a zero-average quarter
classifies as Top Performer. -/
theorem c10_performance_amended (w : Warehouse) (f : FactRow) :
    performanceCategory w f ≠ "Unknown" ∧
    (f.origination_amt = none → performanceCategory w f = "Underperformer") ∧
    (∀ a : ℚ, f.origination_amt = some a → a ≤ 0 →
      (quarterAvgAmt w f.quarter_key = some 0 ∨ quarterAvgAmt w f.quarter_key = none) →
      performanceCategory w f = "Underperformer") ∧
    (f ∈ w.fact → quarterAvgAmt w f.quarter_key = none →
      performanceCategory w f = "Underperformer") := by
  have hNone : f.origination_amt = none → performanceCategory w f = "Underperformer" := by
    intro h
    simp [performanceCategory, h, oGt]
  refine ⟨?_, hNone, fun a ha hle havg => ?_, fun hf havg => ?_⟩
  · unfold performanceCategory
    dsimp only
    split_ifs <;> decide
  · rcases havg with h | h
    · simp [performanceCategory, h, ha, oGt, oMul, not_lt.mpr hle]
    · simp [performanceCategory, h, oGt, oMul]
  · apply hNone
    have hmem : f.origination_amt ∈
        ((w.fact.filter fun f2 => f2.quarter_key == f.quarter_key).map
          fun f2 => f2.origination_amt) :=
      List.mem_map_of_mem _ (List.mem_filter.mpr ⟨hf, by simp⟩)
    simp only [quarterAvgAmt, sqlAVG] at havg
    by_cases hE : (((w.fact.filter fun f2 => f2.quarter_key == f.quarter_key).map
        fun f2 => f2.origination_amt).filterMap id).isEmpty
    · have hnil : ((w.fact.filter fun f2 => f2.quarter_key == f.quarter_key).map
          fun f2 => f2.origination_amt).filterMap id = [] := List.isEmpty_iff.mp hE
      exact (List.filterMap_eq_nil_iff.mp hnil) _ hmem
    · rw [if_neg hE] at havg
      exact absurd havg (by simp)

/-- Claim C6 (counterexample): riskCategory classifies default_rate 0.02 as
Medium Risk, because its BETWEEN bound is inclusive, while the claim maps
0.02 to Low; and it classifies default_rate 0 as Low Risk, while the claim
maps nonpositive rates to Unknown. -/
theorem c6_risk_bucket_counterexample :
    riskCategory (some 0.02) = "Medium Risk" ∧ claimRisk3 (some 0.02) = "Low Risk" ∧
    riskCategory (some 0) = "Low Risk" ∧ claimRisk3 (some 0) = "Unknown" := by
  decide

/-- Claim C6 as amended: the 3-level bucket maps rate > 0.05 to High,
0.02 <= rate <= 0.05 to Medium, rate < 0.02 (including zero and negative
rates) to Low, and only NULL to Unknown; the 6-level bucket classifies
consistently with it under the evident coarsening of labels; and 0.06 is
High Risk under both schemes. -/
theorem c6_risk_buckets_amended :
    (∀ r : SqlVal, riskCategory r = amendedRisk3 r) ∧
    (∀ r : SqlVal, coarsenRisk (riskCategoryDetailed r) = riskCategory r) ∧
    riskCategory (some 0.06) = "High Risk" ∧
    riskCategoryDetailed (some 0.06) = "High Risk" := by
  refine ⟨fun r => ?_, fun r => ?_, by decide, by decide⟩
  · cases r with
    | none => decide
    | some x =>
      rcases lt_or_le 0.05 x with h1 | h1
      · simp [riskCategory, amendedRisk3, oGt, h1]
      · rcases le_or_lt 0.02 x with h2 | h2
        · have hA : ¬ (0.05 : ℚ) < x := not_lt.mpr h1
          simp [riskCategory, amendedRisk3, oGt, oBetween, oLe, hA, h1, h2]
        · have hA : ¬ (0.05 : ℚ) < x := by norm_num; linarith
          have hB : ¬ (0.02 : ℚ) ≤ x := not_le.mpr h2
          simp [riskCategory, amendedRisk3, oGt, oBetween, oLe, oLt, hA, hB, h2]
  · cases r with
    | none => decide
    | some x =>
      rcases lt_or_le 0.10 x with h1 | h1
      · have hd1 : (0.05 : ℚ) < x := by norm_num; linarith
        simp [riskCategoryDetailed, riskCategory, coarsenRisk, oGt, h1, hd1]
      · rcases lt_or_le 0.05 x with h2 | h2
        · have hA : ¬ (0.10 : ℚ) < x := not_lt.mpr h1
          simp [riskCategoryDetailed, riskCategory, coarsenRisk, oGt, hA, h2]
        · rcases le_or_lt 0.03 x with h3 | h3
          · have hA : ¬ (0.10 : ℚ) < x := not_lt.mpr h1
            have hB : ¬ (0.05 : ℚ) < x := not_lt.mpr h2
            have hC : (0.02 : ℚ) ≤ x := by norm_num; linarith
            simp [riskCategoryDetailed, riskCategory, coarsenRisk, oGt, oBetween, oLe,
              hA, hB, hC, h2, h3]
          · rcases le_or_lt 0.02 x with h4 | h4
            · have hA : ¬ (0.10 : ℚ) < x := not_lt.mpr h1
              have hB : ¬ (0.05 : ℚ) < x := not_lt.mpr h2
              have hC : ¬ (0.03 : ℚ) ≤ x := not_le.mpr h3
              have hD : x ≤ (0.03 : ℚ) := le_of_lt h3
              have hE : x ≤ (0.05 : ℚ) := by norm_num; linarith
              simp [riskCategoryDetailed, riskCategory, coarsenRisk, oGt, oBetween, oLe,
                hA, hB, hC, hD, hE, h4]
            · rcases le_or_lt 0.01 x with h5 | h5
              · have hA : ¬ (0.10 : ℚ) < x := not_lt.mpr h1
                have hB : ¬ (0.05 : ℚ) < x := not_lt.mpr h2
                have hC : ¬ (0.03 : ℚ) ≤ x := not_le.mpr h3
                have hD : ¬ (0.02 : ℚ) ≤ x := not_le.mpr h4
                have hE : x ≤ (0.02 : ℚ) := le_of_lt h4
                simp [riskCategoryDetailed, riskCategory, coarsenRisk, oGt, oBetween,
                  oLe, oLt, hA, hB, hC, hD, hE, h4, h5]
              · have hA : ¬ (0.10 : ℚ) < x := not_lt.mpr h1
                have hB : ¬ (0.05 : ℚ) < x := not_lt.mpr h2
                have hC : ¬ (0.03 : ℚ) ≤ x := not_le.mpr h3
                have hD : ¬ (0.02 : ℚ) ≤ x := not_le.mpr h4
                have hE : ¬ (0.01 : ℚ) ≤ x := not_le.mpr h5
                have hF : x < (0.02 : ℚ) := h4
                simp [riskCategoryDetailed, riskCategory, coarsenRisk, oGt, oBetween,
                  oLe, oLt, hA, hB, hC, hD, hE, hF, h5]

/-- Helper: adding a column named n makes the column count of n nonzero. -/
theorem colCount_addCol_self (s : TableShape) (n : String) :
    colCount (addColumnIfMissing s n).1 n ≠ 0 := by
  unfold addColumnIfMissing
  by_cases h : colCount s n = 0
  · rw [if_pos h]
    unfold colCount
    dsimp only
    rw [List.countP_append]
    have h1 : List.countP (fun c => c.name == n) [ColumnDef.mk n true] = 1 := by simp
    omega
  · rw [if_neg h]
    exact h

/-- Helper: the conditional column-add never decreases a column count to
zero. -/
theorem colCount_addCol_mono (s : TableShape) (n m : String)
    (h : colCount s n ≠ 0) : colCount (addColumnIfMissing s m).1 n ≠ 0 := by
  unfold addColumnIfMissing
  by_cases hm : colCount s m = 0
  · rw [if_pos hm]
    unfold colCount at h ⊢
    dsimp only
    rw [List.countP_append]
    omega
  · rw [if_neg hm]
    exact h

/-- Helper: the NOT-NULL relaxation preserves every column count: it only
rewrites nullability, never names. -/
theorem colCount_relax (s : TableShape) (n : String) :
    colCount (relaxProductNumber s).1 n = colCount s n := by
  unfold relaxProductNumber
  by_cases h : notNullColCount s "product_number" = 1
  · rw [if_pos h]
    unfold colCount
    dsimp only
    rw [List.countP_map]
    apply List.countP_congr
    intro c _
    by_cases hc : c.name = "product_number" <;> simp [Function.comp, hc]
  · rw [if_neg h]

/-- Helper: the unique-key step does not touch columns. -/
theorem colCount_addUnique (s : TableShape) (n m : String) :
    colCount (addUniqueIfMissing s n).1 m = colCount s m := by
  unfold addUniqueIfMissing
  by_cases h : idxCount s n = 0
  · rw [if_pos h]
    rfl
  · rw [if_neg h]

/-- Helper: the conditional column-add appends a nullable column only, so
the NOT-NULL count of product_number is unchanged. -/
theorem notNull_addCol (s : TableShape) (m : String) :
    notNullColCount (addColumnIfMissing s m).1 "product_number"
      = notNullColCount s "product_number" := by
  unfold addColumnIfMissing
  by_cases hm : colCount s m = 0
  · rw [if_pos hm]
    unfold notNullColCount
    dsimp only
    rw [List.countP_append]
    simp
  · rw [if_neg hm]

/-- Helper: after the NOT-NULL relaxation the count of NOT NULL
product_number columns is never 1: it is 0 when the guard fired and
unchanged (hence not 1) otherwise. -/
theorem notNull_relax (s : TableShape) :
    notNullColCount (relaxProductNumber s).1 "product_number" ≠ 1 := by
  unfold relaxProductNumber
  by_cases h : notNullColCount s "product_number" = 1
  · rw [if_pos h]
    unfold notNullColCount
    dsimp only
    rw [List.countP_map]
    have hz : List.countP ((fun c => c.name == "product_number" && !c.nullable) ∘ fun c =>
        if c.name == "product_number" then ColumnDef.mk c.name true else c) s.columns = 0 := by
      apply List.countP_eq_zero.mpr
      intro c _
      by_cases hc : c.name = "product_number" <;> simp [Function.comp, hc]
    rw [hz]
    omega
  · rw [if_neg h]
    exact h

/-- Helper: the unique-key step does not touch columns, so it preserves the
NOT-NULL count. -/
theorem notNull_addUnique (s : TableShape) (n : String) :
    notNullColCount (addUniqueIfMissing s n).1 "product_number"
      = notNullColCount s "product_number" := by
  unfold addUniqueIfMissing
  by_cases h : idxCount s n = 0
  · rw [if_pos h]
    rfl
  · rw [if_neg h]

/-- Helper: ensuring the unique key makes its index count nonzero. -/
theorem idxCount_addUnique_self (s : TableShape) (n : String) :
    idxCount (addUniqueIfMissing s n).1 n ≠ 0 := by
  unfold addUniqueIfMissing
  by_cases h : idxCount s n = 0
  · rw [if_pos h]
    unfold idxCount
    dsimp only
    rw [List.countP_append]
    have h1 : List.countP (fun i => i == n) [n] = 1 := by simp
    omega
  · rw [if_neg h]
    exact h

/-- Helper: after one run of the self-heal block every guard condition of
the block is in its no-op state. -/
theorem healDimProduct_healed (s : TableShape) : healedShape (healDimProduct s).1 := by
  unfold healDimProduct
  refine ⟨?_, ?_, ?_, ?_, ?_⟩
  · rw [colCount_addUnique, colCount_relax]
    exact colCount_addCol_mono _ _ _ (colCount_addCol_mono _ _ _
      (colCount_addCol_self s "product_code"))
  · rw [colCount_addUnique, colCount_relax]
    exact colCount_addCol_mono _ _ _ (colCount_addCol_self _ "product_type")
  · rw [colCount_addUnique, colCount_relax]
    exact colCount_addCol_self _ "segment"
  · rw [notNull_addUnique]
    exact notNull_relax _
  · exact idxCount_addUnique_self _ _

/-- Helper: on a shape in no-op state the self-heal block returns the shape
unchanged with an empty action list. -/
theorem healDimProduct_noop (s : TableShape) (h : healedShape s) :
    healDimProduct s = (s, []) := by
  obtain ⟨h1, h2, h3, h4, h5⟩ := h
  unfold healDimProduct addColumnIfMissing relaxProductNumber addUniqueIfMissing
  rw [if_neg h1]
  dsimp only
  rw [if_neg h2]
  dsimp only
  rw [if_neg h3]
  dsimp only
  rw [if_neg h4]
  dsimp only
  rw [if_neg h5]
  rfl

/-- Claim C7: the dim_product self-heal block is idempotent: for every
table shape produced by one application, a second application emits zero
corrective actions - every conditional column-add, the NOT-NULL relaxation
and the unique-key creation take their DO 0 branch - and leaves the shape
unchanged. -/
theorem c7_schema_healer_idempotent (s : TableShape) :
    (healDimProduct (healDimProduct s).1).2 = [] ∧
    (healDimProduct (healDimProduct s).1).1 = (healDimProduct s).1 := by
  have h := healDimProduct_noop (healDimProduct s).1 (healDimProduct_healed s)
  refine ⟨?_, ?_⟩
  · rw [h]
  · rw [h]

/-- Claim C9: ValidateOLAPDataQuality is a pure report over the warehouse
state: the NULL-grain-key count is always 0 (the grain columns are NOT
NULL), the negative-amount and invalid-rate counts are exactly the numbers
of fact rows satisfying the corresponding predicates - stated both as the
SQL filters and as their mathematical reading - and on an empty warehouse
every count is 0 and the freshness fields are NULL, with no error. -/
theorem c9_quality_validator (w : Warehouse) (today : Int) :
    (ValidateOLAPDataQuality w today).null_quarter_key_cnt = 0 ∧
    (ValidateOLAPDataQuality w today).negative_amount_cnt
      = (w.fact.filter fun f =>
          oLt f.origination_amt (some 0) || oLt f.balance_amt (some 0)).length ∧
    (∀ f : FactRow,
      (oLt f.origination_amt (some 0) || oLt f.balance_amt (some 0)) = true ↔
      ((∃ v : ℚ, f.origination_amt = some v ∧ v < 0) ∨
        (∃ v : ℚ, f.balance_amt = some v ∧ v < 0))) ∧
    (ValidateOLAPDataQuality w today).invalid_default_rate_cnt
      = (w.fact.filter fun f =>
          oLt f.default_rate (some 0) || oGt f.default_rate (some 1)).length ∧
    (∀ f : FactRow,
      (oLt f.default_rate (some 0) || oGt f.default_rate (some 1)) = true ↔
      (∃ v : ℚ, f.default_rate = some v ∧ (v < 0 ∨ 1 < v))) ∧
    ValidateOLAPDataQuality ⟨[], [], [], []⟩ today = ⟨0, 0, 0, none, none⟩ := by
  refine ⟨?_, ?_, fun f => ?_, ?_, fun f => ?_, rfl⟩
  · simp [ValidateOLAPDataQuality]
  · simp [ValidateOLAPDataQuality, List.countP_eq_length_filter]
  · cases ho : f.origination_amt <;> cases hb : f.balance_amt <;>
      simp [oLt]
  · simp [ValidateOLAPDataQuality, List.countP_eq_length_filter]
  · cases hd : f.default_rate <;> simp [oLt, oGt]

/-- Witness for c10_performance_amended on wZeroQuarter: the quarter
average is 0, the amount of the row is 0, and the category is
Underperformer. -/
theorem c10_performance_witness :
    fZero.origination_amt = some 0 ∧
    quarterAvgAmt wZeroQuarter fZero.quarter_key = some 0 ∧
    performanceCategory wZeroQuarter fZero = "Underperformer" :=
  ⟨by decide, by decide,
   (c10_performance_amended wZeroQuarter fZero).2.2.1 0 (by decide) (by decide)
     (Or.inl (by decide))⟩

/-- Helper: a predicate count of one in a duplicate-free list containing
the element. -/
theorem countP_eq_one_of_nodup_mem {α : Type} [BEq α] [LawfulBEq α] {l : List α} {a : α}
    (hn : l.Nodup) (ha : a ∈ l) : l.countP (fun x => x == a) = 1 := by
  induction l with
  | nil => simp at ha
  | cons b t ih =>
    rcases List.mem_cons.mp ha with rfl | hat
    · have hpa : (fun x => x == a) a = true := by simp
      rw [List.countP_cons_of_pos (fun x => x == a) t hpa]
      have hz : t.countP (fun x => x == a) = 0 := by
        apply List.countP_eq_zero.mpr
        intro x hx hbeq
        have hxb : x = a := by simpa using hbeq
        subst hxb
        exact (List.nodup_cons.mp hn).1 hx
      omega
    · have hb : ¬ ((fun x => x == a) b = true) := by
        intro hbeq
        have hba : b = a := by simpa using hbeq
        subst hba
        exact (List.nodup_cons.mp hn).1 hat
      rw [List.countP_cons_of_neg (fun x => x == a) t hb]
      exact ih (List.nodup_cons.mp hn).2 hat

/-- Claim C1: after a run of RefreshOLAPAggregations, for every grouping
key (year, country, product_type) present in the fact-dimension join - with
no restriction on NULL measures - the yearly rollup contains exactly one
row with that key, namely the recomputed row whose total columns are the
SQL SUMs and whose avg columns are the SQL AVGs over the matching joined
rows; for each of the three avg columns, whenever every value of its rate
in the group is non-NULL, the column equals the arithmetic mean of those
values; and on the Scenario A warehouse the (2024, US, CreditCard) row
carries total_origination_amt 500000 and avg_default_rate 0.03. -/
theorem c1_yearly_rollup (w : Warehouse) (k : YKey)
    (hk : k ∈ (joinRows w).map yKey) :
    (RefreshOLAPAggregations w).countP
        (fun r => (r.year, r.country, r.product_type) == k) = 1 ∧
    yearlyAggFor w k ∈ RefreshOLAPAggregations w ∧
    (yearlyAggFor w k).total_originations_cnt
      = sqlSUM ((yearlyGroup w k).map fun j => j.f.originations_cnt) ∧
    (yearlyAggFor w k).total_origination_amt
      = sqlSUM ((yearlyGroup w k).map fun j => j.f.origination_amt) ∧
    (yearlyAggFor w k).total_balance_amt
      = sqlSUM ((yearlyGroup w k).map fun j => j.f.balance_amt) ∧
    (yearlyAggFor w k).avg_default_rate
      = sqlAVG ((yearlyGroup w k).map fun j => j.f.default_rate) ∧
    (yearlyAggFor w k).avg_prime_rate
      = sqlAVG ((yearlyGroup w k).map fun j => j.f.prime_rate) ∧
    (yearlyAggFor w k).avg_lending_rate
      = sqlAVG ((yearlyGroup w k).map fun j => j.f.lending_rate) ∧
    (∀ vs : List ℚ, (yearlyGroup w k).map (fun j => j.f.default_rate) = vs.map some →
      (yearlyAggFor w k).avg_default_rate = some (vs.sum / vs.length)) ∧
    (∀ vs : List ℚ, (yearlyGroup w k).map (fun j => j.f.prime_rate) = vs.map some →
      (yearlyAggFor w k).avg_prime_rate = some (vs.sum / vs.length)) ∧
    (∀ vs : List ℚ, (yearlyGroup w k).map (fun j => j.f.lending_rate) = vs.map some →
      (yearlyAggFor w k).avg_lending_rate = some (vs.sum / vs.length)) ∧
    (yearlyAggFor scenarioA (2024, some "US", some "CreditCard")).total_origination_amt
      = some 500000 ∧
    (yearlyAggFor scenarioA (2024, some "US", some "CreditCard")).avg_default_rate
      = some 0.03 := by
  have hgne : yearlyGroup w k ≠ [] := by
    intro hnil
    obtain ⟨j, hj, hjk⟩ := List.mem_map.mp hk
    have hjg : j ∈ yearlyGroup w k := by
      apply List.mem_filter.mpr
      exact ⟨hj, by simp [hjk]⟩
    rw [hnil] at hjg
    simp at hjg
  have hmean : ∀ (sel : JoinedRow → SqlVal) (vs : List ℚ),
      (yearlyGroup w k).map sel = vs.map some →
      sqlAVG ((yearlyGroup w k).map sel) = some (vs.sum / vs.length) := by
    intro sel vs hvs
    have hne : vs ≠ [] := by
      intro hv
      rw [hv] at hvs
      simp only [List.map_nil] at hvs
      exact hgne (List.map_eq_nil_iff.mp hvs)
    rw [hvs]
    unfold sqlAVG
    rw [List.filterMap_map]
    have hfm : List.filterMap (id ∘ some) vs = vs := by
      simp [Function.comp]
    rw [hfm, if_neg (by simp [hne])]
  refine ⟨?_, ?_, rfl, rfl, rfl, rfl, rfl, rfl,
    fun vs hvs => hmean _ vs hvs, fun vs hvs => hmean _ vs hvs,
    fun vs hvs => hmean _ vs hvs, by decide, by decide⟩
  · unfold RefreshOLAPAggregations
    rw [List.countP_map]
    have hcong : ((joinRows w).map yKey).dedup.countP
        ((fun r => (r.year, r.country, r.product_type) == k) ∘ yearlyAggFor w)
        = ((joinRows w).map yKey).dedup.countP (fun k2 => k2 == k) :=
      List.countP_congr (fun k2 _ => Iff.rfl)
    rw [hcong]
    exact countP_eq_one_of_nodup_mem (List.nodup_dedup _) (List.mem_dedup.mpr hk)
  · unfold RefreshOLAPAggregations
    exact List.mem_map_of_mem (yearlyAggFor w) (List.mem_dedup.mpr hk)

/-- Witness for c1_yearly_rollup: Scenario A, whose single joined row
carries the key (2024, US, CreditCard) and default_rate 0.03. -/
theorem c1_yearly_rollup_witness :
    ((2024 : Int), some "US", some "CreditCard") ∈ (joinRows scenarioA).map yKey ∧
    (yearlyGroup scenarioA ((2024 : Int), some "US", some "CreditCard")).map
      (fun j => j.f.default_rate) = [(0.03 : ℚ)].map some ∧
    (RefreshOLAPAggregations scenarioA).countP
      (fun r => (r.year, r.country, r.product_type)
        == (((2024 : Int), some "US", some "CreditCard") : YKey)) = 1 ∧
    (yearlyAggFor scenarioA ((2024 : Int), some "US", some "CreditCard")).avg_default_rate
      = some ([(0.03 : ℚ)].sum / [(0.03 : ℚ)].length) :=
  ⟨by decide, by decide,
   (c1_yearly_rollup scenarioA (2024, some "US", some "CreditCard") (by decide)).1,
   (c1_yearly_rollup scenarioA (2024, some "US", some "CreditCard")
     (by decide)).2.2.2.2.2.2.2.2.1 [0.03] (by decide)⟩

/-- Helper: countP distributes over flatMap as a sum of per-element
counts. -/
theorem countP_flatMap {α β : Type} (l : List α) (g : α → List β) (p : β → Bool) :
    (l.flatMap g).countP p = (l.map fun a => (g a).countP p).sum := by
  rw [List.flatMap_def, List.countP_flatten, List.map_map]
  rfl

/-- Helper: summing indicator values equals counting. -/
theorem sum_map_ite_eq_countP {α : Type} (l : List α) (p : α → Bool) :
    (l.map fun a => if p a then 1 else 0).sum = l.countP p := by
  induction l with
  | nil => rfl
  | cons a t ih =>
    cases h : p a <;> simp [List.countP_cons, h, ih]
    omega

/-- Helper: a joined row produced for fact row f carries f itself and
dimension rows matching the keys of f. -/
theorem rowsFor_keys (w : Warehouse) (f : FactRow) (j : JoinedRow)
    (hj : j ∈ rowsFor w f) :
    j.f = f ∧ j.d.quarter_key = f.quarter_key ∧ j.g.geo_key = f.geo_key ∧
      j.p.product_key = f.product_key := by
  unfold rowsFor at hj
  simp only [List.mem_flatMap, List.mem_map, List.mem_filter] at hj
  obtain ⟨d, ⟨hd, hdk⟩, g, ⟨hg, hgk⟩, p, ⟨hp, hpk⟩, rfl⟩ := hj
  exact ⟨rfl, eq_of_beq hdk, eq_of_beq hgk, eq_of_beq hpk⟩

/-- Helper: when each dimension filter returns exactly one row, the join
section of a fact row is exactly one joined row. -/
theorem rowsFor_singleton (w : Warehouse) (f : FactRow) (d : DateRow) (g : GeoRow)
    (p : ProductRow)
    (hd : w.dates.filter (fun d2 => d2.quarter_key == f.quarter_key) = [d])
    (hg : w.geos.filter (fun g2 => g2.geo_key == f.geo_key) = [g])
    (hp : w.products.filter (fun p2 => p2.product_key == f.product_key) = [p]) :
    rowsFor w f = [⟨f, d, g, p⟩] := by
  unfold rowsFor
  rw [hd, hg, hp]
  rfl

/-- Helper: the join section of any fact row f2 contributes to the count of
view rows at the grain of f exactly when f2 shares that grain, and then
exactly once. -/
theorem rowsFor_grain_countP (w : Warehouse) (f f2 : FactRow) (d : DateRow) (g : GeoRow)
    (p : ProductRow)
    (hd : w.dates.filter (fun d2 => d2.quarter_key == f.quarter_key) = [d])
    (hg : w.geos.filter (fun g2 => g2.geo_key == f.geo_key) = [g])
    (hp : w.products.filter (fun p2 => p2.product_key == f.product_key) = [p]) :
    (rowsFor w f2).countP
        (fun j => (j.d.quarter_key, j.g.geo_key, j.p.product_key) == grainOf f)
      = if grainOf f2 == grainOf f then 1 else 0 := by
  by_cases hgr : grainOf f2 = grainOf f
  · rw [if_pos (beq_iff_eq.mpr hgr)]
    have hk : f2.quarter_key = f.quarter_key ∧ f2.geo_key = f.geo_key ∧
        f2.product_key = f.product_key := by
      simpa [grainOf, Prod.ext_iff] using hgr
    obtain ⟨hk1, hk2, hk3⟩ := hk
    have hsing : rowsFor w f2 = [⟨f2, d, g, p⟩] := by
      apply rowsFor_singleton
      · rw [hk1]; exact hd
      · rw [hk2]; exact hg
      · rw [hk3]; exact hp
    have hdm : d ∈ w.dates.filter (fun d2 => d2.quarter_key == f.quarter_key) := by
      rw [hd]; exact List.mem_singleton_self d
    have hgm : g ∈ w.geos.filter (fun g2 => g2.geo_key == f.geo_key) := by
      rw [hg]; exact List.mem_singleton_self g
    have hpm : p ∈ w.products.filter (fun p2 => p2.product_key == f.product_key) := by
      rw [hp]; exact List.mem_singleton_self p
    have hdk : d.quarter_key = f.quarter_key := eq_of_beq (List.mem_filter.mp hdm).2
    have hgk : g.geo_key = f.geo_key := eq_of_beq (List.mem_filter.mp hgm).2
    have hpk : p.product_key = f.product_key := eq_of_beq (List.mem_filter.mp hpm).2
    have hpa : (fun (j : JoinedRow) =>
        (j.d.quarter_key, j.g.geo_key, j.p.product_key) == grainOf f)
          (JoinedRow.mk f2 d g p) = true := by
      simp [grainOf, hdk, hgk, hpk]
    rw [hsing, List.countP_cons_of_pos (fun (j : JoinedRow) =>
      (j.d.quarter_key, j.g.geo_key, j.p.product_key) == grainOf f) [] hpa]
    rfl
  · rw [if_neg (by simpa using hgr)]
    apply List.countP_eq_zero.mpr
    intro j hj hbeq
    obtain ⟨hjf, hjd, hjg, hjp⟩ := rowsFor_keys w f2 j hj
    apply hgr
    have heq := eq_of_beq hbeq
    rw [hjd, hjg, hjp] at heq
    exact heq

/-- Claim C8 (counterexample): the fact row of wSpread has NULL prime_rate,
and its row of v_powerbi_optimized displays a NULL prime_lending_spread:
the spread column is not COALESCEd, so not every displayed measure column
substitutes 0 for NULL. -/
theorem c8_view_counterexample :
    wSpread.fact.map (fun f => f.prime_rate) = [none] ∧
    (vPowerbiOptimized wSpread).map (fun r => r.prime_lending_spread) = [none] := by
  decide

/-- Claim C8 as amended: when the dimension tables hold exactly one row for
each key of a fact row and the fact grain is unique, v_powerbi_optimized
contains exactly one row at that grain, the row built from the fact row and
its three dimension rows; its six raw measure columns substitute 0 for
NULL; but the derived columns (such as prime_lending_spread, shown NULL in
the counterexample) do not all share that guarantee. -/
theorem c8_view_contract_amended (w : Warehouse) (f : FactRow) (d : DateRow) (g : GeoRow)
    (p : ProductRow)
    (hu : w.fact.countP (fun f2 => grainOf f2 == grainOf f) = 1)
    (hf : f ∈ w.fact)
    (hd : w.dates.filter (fun d2 => d2.quarter_key == f.quarter_key) = [d])
    (hg : w.geos.filter (fun g2 => g2.geo_key == f.geo_key) = [g])
    (hp : w.products.filter (fun p2 => p2.product_key == f.product_key) = [p]) :
    (vPowerbiOptimized w).countP
        (fun r => (r.quarter_key, r.geo_key, r.product_key) == grainOf f) = 1 ∧
    mkPViewRow f d g p ∈ vPowerbiOptimized w ∧
    (f.originations_cnt = none → (mkPViewRow f d g p).originations_cnt = 0) ∧
    (f.origination_amt = none → (mkPViewRow f d g p).origination_amt = 0) ∧
    (f.balance_amt = none → (mkPViewRow f d g p).balance_amt = 0) ∧
    (f.default_rate = none → (mkPViewRow f d g p).default_rate = 0) ∧
    (f.prime_rate = none → (mkPViewRow f d g p).prime_rate = 0) ∧
    (f.lending_rate = none → (mkPViewRow f d g p).lending_rate = 0) := by
  have hsingf : rowsFor w f = [⟨f, d, g, p⟩] := rowsFor_singleton w f d g p hd hg hp
  refine ⟨?_, ?_,
    fun h => by simp [mkPViewRow, h], fun h => by simp [mkPViewRow, h],
    fun h => by simp [mkPViewRow, h], fun h => by simp [mkPViewRow, h],
    fun h => by simp [mkPViewRow, h], fun h => by simp [mkPViewRow, h]⟩
  · unfold vPowerbiOptimized joinRows
    rw [List.countP_map, countP_flatMap]
    have hmapeq : ∀ f2 ∈ w.fact,
        ((rowsFor w f2).countP
          ((fun r => (r.quarter_key, r.geo_key, r.product_key) == grainOf f)
            ∘ fun j => mkPViewRow j.f j.d j.g j.p))
        = if grainOf f2 == grainOf f then 1 else 0 := by
      intro f2 _
      exact rowsFor_grain_countP w f f2 d g p hd hg hp
    rw [List.map_congr_left hmapeq, sum_map_ite_eq_countP]
    exact hu
  · unfold vPowerbiOptimized joinRows
    apply List.mem_map.mpr
    refine ⟨⟨f, d, g, p⟩, ?_, rfl⟩
    apply List.mem_flatMap.mpr
    refine ⟨f, hf, ?_⟩
    rw [hsingf]
    exact List.mem_singleton_self _

/-- Witness for c8_view_contract_amended on Scenario A, whose balance_amt,
prime_rate and lending_rate are NULL: the view holds exactly one row at the
grain and displays balance 0. -/
theorem c8_view_contract_witness :
    scenarioA.fact.countP (fun f2 => grainOf f2 == grainOf fScenarioA) = 1 ∧
    (vPowerbiOptimized scenarioA).countP
      (fun r => (r.quarter_key, r.geo_key, r.product_key) == grainOf fScenarioA) = 1 ∧
    (mkPViewRow fScenarioA ⟨20243, 2024, 3, 19967, 20058⟩ ⟨1, some "US", none, none⟩
      ⟨1, some "CC", some "CreditCard", some "Retail"⟩).balance_amt = 0 :=
  ⟨by decide,
   (c8_view_contract_amended scenarioA fScenarioA ⟨20243, 2024, 3, 19967, 20058⟩
     ⟨1, some "US", none, none⟩ ⟨1, some "CC", some "CreditCard", some "Retail"⟩
     (by decide) (by decide) (by decide) (by decide) (by decide)).1,
   (c8_view_contract_amended scenarioA fScenarioA ⟨20243, 2024, 3, 19967, 20058⟩
     ⟨1, some "US", none, none⟩ ⟨1, some "CC", some "CreditCard", some "Retail"⟩
     (by decide) (by decide) (by decide) (by decide) (by decide)).2.2.2.2.1 (by decide)⟩

end DW
